import Mathlib

/-!
# Verification of the fitness-app extraction / scoring / aggregation core

Shallow embedding of the decision logic of the repository:

* `llm_client.py` — `parse_health_json` (JSON locating, coercion helpers
  `to_int` / `to_float` / `normalize_workout_type`, the steps guard),
  `calculate_points`, `empty_health_data`,
  `extract_health_data_from_text` (with the network call to the LLM
  modelled as an oracle `String → String`), `build_extraction_prompt`.
* `db.py` — the pure aggregation core of `export_records_to_excel`
  (pandas `groupby("email").agg` + the `np.select` step-bucket column) and
  of `generate_leaderboard` (the `workout_types` merge lambda).

Python strings are modelled as Lean `String` (a wrapper around `List Char`;
Python compares and orders strings by code points, which matches `Char`
comparison by `toNat`).  Python `float` fields never undergo arithmetic in
the normalizer and are only summed in the aggregator, so they are modelled
as `Rat`; `None` is `Option.none`.  Fallible Python code (raising) is
modelled with `Except PyErr`.
-/

/-- Python whitespace, the default set stripped by `str.strip()`:
space, tab, newline, carriage return, vertical tab, form feed. -/
def isPySpace (c : Char) : Bool :=
  c = ' ' || c = '\t' || c = '\n' || c = '\r' || c = '\x0b' || c = '\x0c'

/-- Strip of Python `str.strip()` at the character-list level. -/
def pyStripChars (l : List Char) : List Char :=
  ((l.dropWhile isPySpace).reverse.dropWhile isPySpace).reverse

/-- Python `str.strip()`. -/
def pyStrip (s : String) : String := ⟨pyStripChars s.data⟩

/-- Python `str.lower()` (ASCII case folding suffices for the inputs the
normalizer compares against its closed workout set). -/
def pyLower (s : String) : String := ⟨s.data.map Char.toLower⟩

/-- Python `s[:n]` (first `n` characters). -/
def pyTake (n : Nat) (s : String) : String := ⟨s.data.take n⟩

/-- Python `s[a:b]` for `0 ≤ a ≤ b`. -/
def pySlice (s : String) (a b : Nat) : String := ⟨(s.data.take b).drop a⟩

/-- Python `str.split(sep)` for a one-character separator, at the
character-list level.  `"".split(",") = [""]` and separators at the ends
produce empty pieces, exactly as in Python. -/
def splitChar (sep : Char) : List Char → List (List Char)
  | [] => [[]]
  | c :: cs =>
    match splitChar sep cs with
    | [] => [[]]
    | t :: ts => if c = sep then [] :: t :: ts else (c :: t) :: ts

/-- Python `str.split(sep)` for a one-character separator. -/
def pySplit (sep : Char) (s : String) : List String :=
  (splitChar sep s.data).map (fun cs => ⟨cs⟩)

/-- Index of the first occurrence of `c` (Python `str.find` when present). -/
def firstIdx (c : Char) : List Char → Option Nat
  | [] => none
  | a :: as => if a = c then some 0 else (firstIdx c as).map (· + 1)

/-- Index of the last occurrence of `c` (Python `str.rfind` when present). -/
def lastIdx (c : Char) : List Char → Option Nat
  | [] => none
  | a :: as =>
    match lastIdx c as with
    | some n => some (n + 1)
    | none => if a = c then some 0 else none

/-- Python `str.find`: first index of `c`, `-1` when absent. -/
def pyFind (c : Char) (s : List Char) : Int :=
  match firstIdx c s with
  | some n => (n : Int)
  | none => -1

/-- Python `str.rfind`: last index of `c`, `-1` when absent. -/
def pyRfind (c : Char) (s : List Char) : Int :=
  match lastIdx c s with
  | some n => (n : Int)
  | none => -1

/-- Decimal digits to a natural number. -/
def digitsToNat (l : List Char) : Nat :=
  l.foldl (fun acc c => acc * 10 + (c.toNat - '0'.toNat)) 0

/-- Python `int(str)`: strip whitespace, optional sign, a nonempty run of
decimal digits; anything else raises `ValueError` (modelled as `none`). -/
def pyIntOfString (s : String) : Option Int :=
  match pyStripChars s.data with
  | '-' :: ds =>
    if !ds.isEmpty && ds.all Char.isDigit then some (-(digitsToNat ds : Int)) else none
  | '+' :: ds =>
    if !ds.isEmpty && ds.all Char.isDigit then some ((digitsToNat ds : Int)) else none
  | ds =>
    if !ds.isEmpty && ds.all Char.isDigit then some ((digitsToNat ds : Int)) else none

/-- Truncation toward zero, the behavior of Python `int(float)`. -/
def ratTruncToInt (q : Rat) : Int :=
  if q < 0 then -((-q).floor) else q.floor

/-- Rational value of a decimal literal: sign, integer digits, fraction
digits, optional exponent. -/
def ratOfParts (neg : Bool) (ip fp : List Char) (ex : Option (Bool × List Char)) : Rat :=
  let m : Rat := (digitsToNat (ip ++ fp) : Rat) / ((10 : Rat) ^ fp.length)
  let m : Rat :=
    match ex with
    | none => m
    | some (eneg, ed) =>
      if eneg then m / (10 : Rat) ^ digitsToNat ed else m * (10 : Rat) ^ digitsToNat ed
  if neg then -m else m

/-- Python `float(str)` on ordinary decimal literals: strip whitespace,
optional sign, digits with an optional decimal point and exponent.  IEEE
special spellings (`nan`, `inf`) are outside the scope of this model. -/
def pyFloatOfString (s : String) : Option Rat :=
  let t := pyStripChars s.data
  let p : Bool × List Char :=
    match t with
    | '-' :: r => (true, r)
    | '+' :: r => (false, r)
    | _ => (false, t)
  let neg := p.1
  let ipp := p.2.span Char.isDigit
  let ip := ipp.1
  let afterInt := ipp.2
  let fpp : List Char × List Char :=
    match afterInt with
    | '.' :: r => ((r.span Char.isDigit).1, (r.span Char.isDigit).2)
    | _ => ([], afterInt)
  let fp := fpp.1
  let rest := fpp.2
  if ip.isEmpty && fp.isEmpty then
    none
  else
    match rest with
    | [] => some (ratOfParts neg ip fp none)
    | e :: r =>
      if e = 'e' || e = 'E' then
        let q : Bool × List Char :=
          match r with
          | '-' :: r2 => (true, r2)
          | '+' :: r2 => (false, r2)
          | _ => (false, r)
        let edp := q.2.span Char.isDigit
        if edp.1.isEmpty || !edp.2.isEmpty then none
        else some (ratOfParts neg ip fp (some (q.1, edp.1)))
      else none

/-- A Python `float` as it occurs in this pipeline: a finite value
(modelled as a rational, since the normalizer performs no arithmetic on
it), or one of the IEEE non-finite values `nan`, `inf`, `-inf`, which
`json.loads` produces by default for the constants `NaN`, `Infinity`,
`-Infinity`. -/
inductive PyFloat where
  | finite (q : Rat)
  | nan
  | inf
  | ninf
deriving DecidableEq

instance (n : Nat) : OfNat PyFloat n := ⟨.finite n⟩

/-- JSON values as produced by Python `json.loads`. -/
inductive JsonValue where
  | null
  | bool (b : Bool)
  | int (n : Int)
  | float (x : PyFloat)
  | str (s : String)
  | arr (elems : List JsonValue)
  | obj (fields : List (String × JsonValue))

/-- JSON whitespace accepted between tokens by `json.loads`. -/
def isJsonWs (c : Char) : Bool :=
  c = ' ' || c = '\t' || c = '\n' || c = '\r'

/-- Hexadecimal digit value (code points 48-57, 97-102, 65-70), for JSON
string escapes. -/
def hexVal (c : Char) : Option Nat :=
  let n := c.toNat
  if 48 ≤ n && n ≤ 57 then some (n - 48)
  else if 97 ≤ n && n ≤ 102 then some (n - 87)
  else if 65 ≤ n && n ≤ 70 then some (n - 55)
  else none

/-- Table of the one-character JSON escapes (backspace 8, form feed 12,
line feed 10, carriage return 13, tab 9). -/
def escPairs : List (Char × Char) :=
  [('"', '"'), ('\\', '\\'), ('/', '/'), ('b', Char.ofNat 8), ('f', Char.ofNat 12),
   ('n', Char.ofNat 10), ('r', Char.ofNat 13), ('t', Char.ofNat 9)]

/-- One-character JSON escape lookup. -/
def escChar (e : Char) : Option Char :=
  (escPairs.find? (fun p => p.1 = e)).map (fun p => p.2)

/-- Body of a JSON string (the opening quote already consumed): decoded
characters plus the remainder after the closing quote.  Unescaped control
characters are rejected, as by `json.loads` in strict mode. -/
def parseJsonStringBody : List Char → Option (List Char × List Char)
  | [] => none
  | c :: rest =>
    if c = '"' then some ([], rest)
    else if c = '\\' then
      match rest with
      | [] => none
      | e :: rest2 =>
        if e = 'u' then
          match rest2 with
          | h1 :: h2 :: h3 :: h4 :: rest3 =>
            match hexVal h1, hexVal h2, hexVal h3, hexVal h4 with
            | some v1, some v2, some v3, some v4 =>
              (parseJsonStringBody rest3).map
                (fun p => (Char.ofNat (((v1 * 16 + v2) * 16 + v3) * 16 + v4) :: p.1, p.2))
            | _, _, _, _ => none
          | _ => none
        else
          match escChar e with
          | some d => (parseJsonStringBody rest2).map (fun p => (d :: p.1, p.2))
          | none => none
    else if c.toNat < 32 then none
    else (parseJsonStringBody rest).map (fun p => (c :: p.1, p.2))

/-- A JSON number token: optional minus, an integer part without leading
zeros, optional fraction, optional exponent.  Produces `.int` exactly when
neither fraction nor exponent is present, as `json.loads` does. -/
def parseJsonNumber (s : List Char) : Option (JsonValue × List Char) :=
  let sp : Bool × List Char :=
    match s with
    | '-' :: r => (true, r)
    | _ => (false, s)
  let neg := sp.1
  let ipr : Option (List Char × List Char) :=
    match sp.2 with
    | '0' :: r => some (['0'], r)
    | c :: r =>
      if c.isDigit && c ≠ '0' then
        some (c :: (r.span Char.isDigit).1, (r.span Char.isDigit).2)
      else none
    | [] => none
  match ipr with
  | none => none
  | some (ip, r) =>
    let fracr : Option (Option (List Char) × List Char) :=
      match r with
      | '.' :: r2 =>
        if (r2.span Char.isDigit).1.isEmpty then none
        else some (some (r2.span Char.isDigit).1, (r2.span Char.isDigit).2)
      | _ => some (none, r)
    match fracr with
    | none => none
    | some (fp, r2) =>
      let expr : Option (Option (Bool × List Char) × List Char) :=
        match r2 with
        | e :: r3 =>
          if e = 'e' || e = 'E' then
            let q : Bool × List Char :=
              match r3 with
              | '-' :: r4 => (true, r4)
              | '+' :: r4 => (false, r4)
              | _ => (false, r3)
            if (q.2.span Char.isDigit).1.isEmpty then none
            else some (some (q.1, (q.2.span Char.isDigit).1), (q.2.span Char.isDigit).2)
          else some (none, r2)
        | [] => some (none, r2)
      match expr with
      | none => none
      | some (ex, rest) =>
        match fp, ex with
        | none, none =>
          some (.int (if neg then -(digitsToNat ip : Int) else (digitsToNat ip : Int)), rest)
        | _, _ =>
          some (.float (.finite (ratOfParts neg ip (fp.getD []) ex)), rest)

/-- Drop a literal keyword from the head of the input, if present there. -/
def dropKeyword : List Char → List Char → Option (List Char)
  | [], s => some s
  | c :: ws, d :: ds => if c = d then dropKeyword ws ds else none
  | _ :: _, [] => none

mutual

/-- Recursive-descent JSON value, fuel-bounded (the fuel only guards
termination; `jsonLoads` supplies more fuel than any input can consume).
Accepts the keywords `null` / `true` / `false`, the non-finite constants
`NaN` / `Infinity` / `-Infinity` (which `json.loads` accepts by default,
`allow_nan=True`), strings, arrays, objects and numbers, with
surrounding JSON whitespace. -/
def parseJsonValue : Nat → List Char → Option (JsonValue × List Char)
  | 0, _ => none
  | fuel + 1, s =>
    let s := s.dropWhile isJsonWs
    match dropKeyword "null".data s with
    | some rest => some (.null, rest)
    | none =>
      match dropKeyword "true".data s with
      | some rest => some (.bool true, rest)
      | none =>
        match dropKeyword "false".data s with
        | some rest => some (.bool false, rest)
        | none =>
          match dropKeyword "NaN".data s with
          | some rest => some (.float .nan, rest)
          | none =>
          match dropKeyword "Infinity".data s with
          | some rest => some (.float .inf, rest)
          | none =>
          match dropKeyword "-Infinity".data s with
          | some rest => some (.float .ninf, rest)
          | none =>
          match s with
          | '"' :: rest => (parseJsonStringBody rest).map (fun p => (.str ⟨p.1⟩, p.2))
          | '[' :: rest =>
            match rest.dropWhile isJsonWs with
            | ']' :: r2 => some (.arr [], r2)
            | _ => (parseJsonArrayItems fuel rest).map (fun p => (.arr p.1, p.2))
          | '{' :: rest =>
            match rest.dropWhile isJsonWs with
            | '}' :: r2 => some (.obj [], r2)
            | _ => (parseJsonObjItems fuel rest).map (fun p => (.obj p.1, p.2))
          | _ => parseJsonNumber s

/-- One or more comma-separated array elements up to the closing bracket. -/
def parseJsonArrayItems : Nat → List Char → Option (List JsonValue × List Char)
  | 0, _ => none
  | fuel + 1, s =>
    match parseJsonValue fuel s with
    | none => none
    | some (v, rest) =>
      match rest.dropWhile isJsonWs with
      | ',' :: rest2 =>
        match parseJsonArrayItems fuel rest2 with
        | some (vs, rest3) => some (v :: vs, rest3)
        | none => none
      | ']' :: rest2 => some ([v], rest2)
      | _ => none

/-- One or more comma-separated object members up to the closing brace. -/
def parseJsonObjItems : Nat → List Char → Option (List (String × JsonValue) × List Char)
  | 0, _ => none
  | fuel + 1, s =>
    match s.dropWhile isJsonWs with
    | '"' :: rest =>
      match parseJsonStringBody rest with
      | none => none
      | some (k, rest2) =>
        match rest2.dropWhile isJsonWs with
        | ':' :: rest3 =>
          match parseJsonValue fuel rest3 with
          | none => none
          | some (v, rest4) =>
            match rest4.dropWhile isJsonWs with
            | ',' :: rest5 =>
              match parseJsonObjItems fuel rest5 with
              | some (kvs, rest6) => some ((⟨k⟩, v) :: kvs, rest6)
              | none => none
            | '}' :: rest5 => some ([(⟨k⟩, v)], rest5)
            | _ => none
        | _ => none
    | _ => none

end

/-- Python `json.loads`: parse one JSON value and require only whitespace
after it. -/
def jsonLoads (s : String) : Option JsonValue :=
  match parseJsonValue (s.data.length + 1) s.data with
  | some (v, rest) => if (rest.dropWhile isJsonWs).isEmpty then some v else none
  | none => none

/-- Errors raised by the Python code paths modelled here. -/
inductive PyErr where
  /-- Exception class raised by `parse_health_json` in `llm_client.py`
  (the decode-error detail interpolated from `json.JSONDecodeError` is
  abstracted to a fixed prefix; the truncated snippet of the raw text is
  kept verbatim). -/
  | LLMExtractionError (msg : String)
  /-- Python `TypeError`, e.g. ordering `None` against an `int`. -/
  | typeError
  /-- Python `AttributeError`, e.g. calling `.get` on a non-dict. -/
  | attributeError
deriving DecidableEq

/-- The `HealthData` pydantic model of `models.py`: every field optional;
the float metrics are Python floats (`PyFloat`), so a non-finite value
coming out of the extraction is storable as the source stores it. -/
structure HealthData where
  steps : Option Int
  calories_kcal : Option PyFloat
  distance_km : Option PyFloat
  active_time_minutes : Option PyFloat
  total_points : Option Int
  workout_type : Option String
deriving DecidableEq

/-- Python `dict.get(key)` on a JSON object: the value bound to `key`
(last binding wins, as when `json.loads` builds a `dict`), or `None`
(modelled as `JsonValue.null`, which the coercions below treat exactly
like an explicit JSON `null`) when the key is absent. -/
def jget (obj : List (String × JsonValue)) (key : String) : JsonValue :=
  match obj.reverse.find? (fun p => p.1 == key) with
  | some p => p.2
  | none => .null

/-- The inner `to_int` of `parse_health_json`: `None` passes through,
`int(v)` is attempted, and `ValueError` / `TypeError` yield `None`.
`int(nan)` raises `ValueError`, which is caught, so `nan` yields `None`
like any other unparseable value.  `int(±inf)` raises `OverflowError`,
which the `except (ValueError, TypeError)` clause does NOT catch, so in
the source it escapes `parse_health_json` directly; the model returns
`none` there as well, which ends in the same observable outcome — the
parse raises instead of producing a record (the non-finite steps path is
folded into the exception result of `parse_health_obj` below). -/
def to_int : JsonValue → Option Int
  | .null => none
  | .bool b => some (if b then 1 else 0)
  | .int n => some n
  | .float (.finite q) => some (ratTruncToInt q)
  | .float _ => none
  | .str s => pyIntOfString s
  | .arr _ => none
  | .obj _ => none

/-- The inner `to_float` of `parse_health_json`: `None` passes through,
`float(v)` is attempted, and `ValueError` / `TypeError` yield `None`.
A float input — finite or not — passes through unchanged, as `float(v)`
is the identity on floats. -/
def to_float : JsonValue → Option PyFloat
  | .null => none
  | .bool b => some (if b then 1 else 0)
  | .int n => some (.finite (n : Rat))
  | .float x => some x
  | .str s => (pyFloatOfString s).map .finite
  | .arr _ => none
  | .obj _ => none

/-- The inner `normalize_workout_type` of `parse_health_json`: non-strings
become `None`; otherwise trim, lower-case, map the strength aliases, and
keep the value only if it is in the closed set. -/
def normalize_workout_type (v : JsonValue) : Option String :=
  match v with
  | .str s =>
    let v0 := pyLower (pyStrip s)
    let v1 :=
      if v0 = "strength" || v0 = "strength-training" || v0 = "strength training" then
        "strength_training"
      else v0
    if v1 = "sport" || v1 = "strength_training" || v1 = "cardio" || v1 = "yoga" then
      some v1
    else none
  | _ => none

/-- The `workout_points` dict of `calculate_points` in `llm_client.py`. -/
def workout_points : List (String × Int) :=
  [("sport", 300), ("strength_training", 300), ("cardio", 200), ("yoga", 200)]

/-- Python `dict.get(key, default)` on `workout_points`; a `None` key is
simply not in the dict, so it yields the default. -/
def dictGetInt (d : List (String × Int)) (k : Option String) (dflt : Int) : Int :=
  match k with
  | none => dflt
  | some s =>
    match d.find? (fun p => p.1 == s) with
    | some p => p.2
    | none => dflt

/-- `calculate_points` of `llm_client.py`: the step bucket `step_points`
is computed but the function returns only the workout score. -/
def calculate_points (steps : Int) (workout_type : Option String) : Int :=
  let step_points : Int :=
    if steps ≤ 5000 then 25
    else if steps ≤ 8000 then 35
    else if steps ≤ 10000 then 80
    else if steps ≤ 15000 then 150
    else if steps ≤ 20000 then 300
    else 500
  let workout_score := dictGetInt workout_points workout_type 0
  workout_score

/-- The normalization part of `parse_health_json` (lines 117-165), applied
to an already-parsed JSON object.  Mirrors the source: `steps1` is zeroed
unless the parsed value exceeds 40000 (in which case it becomes 20000),
and `total_points` is computed from the ORIGINAL `to_int(obj.get("steps"))`
value — which, when that value is `None`, reaches `steps <= 5000` inside
`calculate_points` and raises `TypeError` (`None` is not orderable against
an `int` in Python 3). -/
def parse_health_obj (obj : List (String × JsonValue)) : Except PyErr HealthData :=
  match to_int (jget obj "steps") with
  | none => .error .typeError
  | some s =>
    .ok
      { steps := some (if s > 40000 then 20000 else 0)
      , calories_kcal := to_float (jget obj "calories_kcal")
      , distance_km := to_float (jget obj "distance_km")
      , active_time_minutes := to_float (jget obj "active_time_minutes")
      , total_points := some (calculate_points s (normalize_workout_type (jget obj "workout_type")))
      , workout_type := normalize_workout_type (jget obj "workout_type") }

/-- `parse_health_json` of `llm_client.py`: locate the substring between
the first `'\x7b'` and the last `'\x7d'`, `json.loads` it, and normalize;
either locating or decoding failure raises `LLMExtractionError` carrying
`raw[:200]`. -/
def parse_health_json (raw : String) : Except PyErr HealthData :=
  let start := pyFind '{' raw.data
  let stop := pyRfind '}' raw.data
  if start = -1 ∨ stop = -1 ∨ start > stop then
    .error (.LLMExtractionError ("Could not find JSON object in response: " ++ pyTake 200 raw))
  else
    let json_str := pySlice raw start.toNat (stop.toNat + 1)
    match jsonLoads json_str with
    | none =>
      .error (.LLMExtractionError ("Invalid JSON from LLM: Expecting value | raw=" ++ pyTake 200 raw))
    | some (.obj fields) => parse_health_obj fields
    | some _ => .error .attributeError

/-- `empty_health_data` of `llm_client.py`. -/
def empty_health_data : HealthData :=
  { steps := some 0
  , calories_kcal := some 0
  , distance_km := some 0
  , active_time_minutes := some 0
  , total_points := some 0
  , workout_type := some "" }

/-- `build_extraction_prompt` of `llm_client.py`: the f-string prompt with
the OCR text interpolated, then `str.strip()`.  Literal braces of the JSON
example are written as `\x7b` / `\x7d`. -/
def build_extraction_prompt (text : String) : String :=
  pyStrip
    ("\n    Return ONLY valid JSON. No text, no markdown, no explanations.\n\n"
      ++ "    From the text below, extract the following fields:\n"
      ++ "    - steps (number, 0 if not available)\n"
      ++ "    - calories_kcal (number, 0 if not available)\n"
      ++ "    - distance_km (number, 0 if not available)\n"
      ++ "    - active_time_minutes (number, 0 if not available)\n"
      ++ "    - workout_type (\"cardio\", \"sport\", \"strength_training\", \"yoga\", or empty string if not available)\n\n"
      ++ "    Workout_type rules:\n"
      ++ "    - \"cardio\": run, treadmill, cycling, swimming, rowing, elliptical\n"
      ++ "    - \"sport\": games like cricket, football, basketball, tennis, table tennis, etc.\n"
      ++ "    - \"strength_training\": gym, weights, resistance, bodyweight exercises, dance, HIIT\n"
      ++ "    - \"yoga\": yoga, stretching, meditation\n"
      ++ "    - null: if no workout described\n"
      ++ "    - IMPORTANT if you are not clear about the workout type, then make it null.\n"
      ++ "    - IMPORTANT if there is no walking or steps mentioned, make steps 0.\n"
      ++ "    - IMPORTANT if there is no Workout_type and only Steps mentioned then workout_type should be null.\n\n"
      ++ "    Text:\n"
      ++ "    " ++ text ++ "\n\n"
      ++ "    JSON ONLY. Example of correct format:\n\n"
      ++ "    \x7b\n"
      ++ "      \"steps\": 7672,\n"
      ++ "      \"calories_kcal\": null,\n"
      ++ "      \"distance_km\": 5.54,\n"
      ++ "      \"active_time_minutes\": 75.56,\n"
      ++ "      \"workout_type\": \"cardio\"\n"
      ++ "    \x7d\n"
      ++ "    ")

/-- `extract_health_data_from_text` of `llm_client.py`.  The network call
`call_togather_ai` is an external collaborator, passed as an oracle from
prompt to raw model output.  Empty or whitespace-only OCR text
short-circuits to `empty_health_data` before any oracle use. -/
def extract_health_data_from_text (call_togather_ai : String → String) (text : String) :
    Except PyErr HealthData :=
  if text == "" || pyStrip text == "" then .ok empty_health_data
  else parse_health_json (call_togather_ai (build_extraction_prompt text))

/-- Lexicographic comparison of character lists by code point — how
Python orders `str` values in `sorted`. -/
def lexLe (u v : List Char) : Bool :=
  match u, v with
  | [], _ => true
  | _, [] => false
  | a :: as, b :: bs =>
    if a.toNat < b.toNat then true
    else if b.toNat < a.toNat then false
    else lexLe as bs

/-- Python string comparison `a <= b` (code-point lexicographic). -/
def strLe (a b : String) : Bool := lexLe a.data b.data

/-- Insertion into an ascending duplicate-free list, dropping the element
when already present. -/
def insertSorted (a : String) : List String → List String
  | [] => [a]
  | b :: bs =>
    if a == b then b :: bs
    else if strLe a b then a :: b :: bs
    else b :: insertSorted a bs

/-- Python `sorted(set(l))` for strings: the ascending enumeration of the
distinct elements of `l` (proved strictly sorted with exactly the members
of `l` by `sortedUnique_pairwise` / `mem_sortedUnique` below, which pins
the result down uniquely). -/
def sortedUnique (l : List String) : List String :=
  l.foldr insertSorted []

/-- pandas `"max"` aggregation over a (nonempty) group of integers. -/
def listMax : List Int → Int
  | [] => 0
  | a :: as => as.foldl max a

/-- The `np.select` step-bucket column of `export_records_to_excel` in
`db.py` (same inclusive bounds as the unused `step_points` of
`calculate_points`). -/
def step_points_select (steps : Int) : Int :=
  if steps ≤ 5000 then 25
  else if steps ≤ 8000 then 35
  else if steps ≤ 10000 then 80
  else if steps ≤ 15000 then 150
  else if steps ≤ 20000 then 300
  else 500

/-- One row of the per-image `excel_records` list built in
`save_results_to_db` (`db.py`), restricted to the columns consumed by the
`groupby("email").agg` of `export_records_to_excel`.  `steps` and
`total_points` are always populated with integers by the extraction
pipeline (`parse_health_json` / `empty_health_data`), so they are carried
as `Int` here; the float metrics stay optional. -/
structure AggRecord where
  email : String
  steps : Int
  calories_kcal : Option Rat
  distance_km : Option Rat
  active_time_minutes : Option Rat
  workout_type : Option String
  total_points : Int
deriving DecidableEq

/-- One row of the "Daily Summary" sheet produced by
`export_records_to_excel` (after the step-points column is added into
`total_points` and the columns are renamed). -/
structure SummaryRow where
  email : String
  total_steps : Int
  total_calories_kcal : Rat
  total_distance_km : Rat
  total_active_time_minutes : Rat
  total_points : Int
  workout_types : String
deriving DecidableEq

/-- The per-group aggregation of `export_records_to_excel` (`db.py`,
lines 208-239) for the group keyed by `e`: `steps → max`, the numeric
columns summed with pandas `skipna` semantics (absent values contribute
nothing), `workout_type` folded by
`", ".join(sorted(set(filter(None, x))))` (which drops both `None` and
the empty string, the two falsy values), then the `np.select` step bucket
of the group's max steps added into the summed base points. -/
def summaryRow (records : List AggRecord) (e : String) : SummaryRow :=
  let g := records.filter (fun r => r.email == e)
  let maxSteps := listMax (g.map (fun r => r.steps))
  { email := e
  , total_steps := maxSteps
  , total_calories_kcal := (g.map (fun r => r.calories_kcal.getD 0)).sum
  , total_distance_km := (g.map (fun r => r.distance_km.getD 0)).sum
  , total_active_time_minutes := (g.map (fun r => r.active_time_minutes.getD 0)).sum
  , total_points := (g.map (fun r => r.total_points)).sum + step_points_select maxSteps
  , workout_types :=
      String.intercalate ", "
        (sortedUnique ((g.filterMap (fun r => r.workout_type)).filter (fun s => !(s == "")))) }

/-- The "Daily Summary" sheet of `export_records_to_excel`: one row per
distinct `email`, in ascending key order (pandas `groupby` sorts its keys
by default). -/
def export_summary_rows (records : List AggRecord) : List SummaryRow :=
  (sortedUnique (records.map (fun r => r.email))).map (summaryRow records)

/-- The `workout_types` aggregation lambda of `generate_leaderboard`
(`db.py`, line 298): `", ".join(sorted(set(",".join(x).split(","))))` —
note it joins the group's strings with a bare `","` and splits on a bare
`","`, while the daily summaries were joined with `", "`. -/
def lb_workout_types_agg (xs : List String) : String :=
  String.intercalate ", " (sortedUnique (pySplit ',' (String.intercalate "," xs)))

/-- Concrete one-day input used to witness the daily-aggregation claim:
one user with two images (steps 3000 with workout `cardio`, steps 9000
with no workout), per-image points as computed by `calculate_points`. -/
def c5_witness_records : List AggRecord :=
  [{ email := "alice", steps := 3000, calories_kcal := none, distance_km := none,
     active_time_minutes := none, workout_type := some "cardio",
     total_points := calculate_points 3000 (some "cardio") },
   { email := "alice", steps := 9000, calories_kcal := none, distance_km := none,
     active_time_minutes := none, workout_type := none,
     total_points := calculate_points 9000 none }]

theorem char_toNat_inj {x y : Char} (h : x.toNat = y.toNat) : x = y := by
  have h2 := congrArg Char.ofNat h
  rwa [Char.ofNat_toNat, Char.ofNat_toNat] at h2

theorem lexLe_total (a b : List Char) : lexLe a b = true ∨ lexLe b a = true := by
  induction a generalizing b with
  | nil => left; simp [lexLe]
  | cons x xs ih =>
    cases b with
    | nil => right; rfl
    | cons y ys =>
      rcases Nat.lt_trichotomy x.toNat y.toNat with h | h | h
      · left; simp [lexLe, h]
      · have h1 : ¬ x.toNat < y.toNat := by omega
        have h2 : ¬ y.toNat < x.toNat := by omega
        rcases ih ys with hh | hh
        · left; simp [lexLe, h1, h2, hh]
        · right; simp [lexLe, h1, h2, hh]
      · right; simp [lexLe, h]

theorem lexLe_trans : ∀ {a b c : List Char},
    lexLe a b = true → lexLe b c = true → lexLe a c = true := by
  intro a
  induction a with
  | nil => intro b c h1 h2; simp [lexLe]
  | cons x xs ih =>
    intro b c h1 h2
    cases b with
    | nil => simp [lexLe] at h1
    | cons y ys =>
      cases c with
      | nil => simp [lexLe] at h2
      | cons z zs =>
        rcases Nat.lt_trichotomy x.toNat y.toNat with h | h | h
        · rcases Nat.lt_trichotomy y.toNat z.toNat with h' | h' | h'
          · have : x.toNat < z.toNat := by omega
            simp [lexLe, this]
          · have : x.toNat < z.toNat := by omega
            simp [lexLe, this]
          · have e1 : ¬ y.toNat < z.toNat := by omega
            simp [lexLe, e1, h'] at h2
        · rcases Nat.lt_trichotomy y.toNat z.toNat with h' | h' | h'
          · have : x.toNat < z.toNat := by omega
            simp [lexLe, this]
          · have e1 : ¬ x.toNat < y.toNat := by omega
            have e2 : ¬ y.toNat < x.toNat := by omega
            have e3 : ¬ y.toNat < z.toNat := by omega
            have e4 : ¬ z.toNat < y.toNat := by omega
            have e5 : ¬ x.toNat < z.toNat := by omega
            have e6 : ¬ z.toNat < x.toNat := by omega
            simp only [lexLe, e1, e2, if_false] at h1
            simp only [lexLe, e3, e4, if_false] at h2
            simp only [lexLe, e5, e6, if_false]
            exact ih h1 h2
          · have e1 : ¬ y.toNat < z.toNat := by omega
            simp [lexLe, e1, h'] at h2
        · have e1 : ¬ x.toNat < y.toNat := by omega
          simp [lexLe, e1, h] at h1

theorem lexLe_antisymm : ∀ {a b : List Char},
    lexLe a b = true → lexLe b a = true → a = b := by
  intro a
  induction a with
  | nil =>
    intro b h1 h2
    cases b with
    | nil => rfl
    | cons y ys => simp [lexLe] at h2
  | cons x xs ih =>
    intro b h1 h2
    cases b with
    | nil => simp [lexLe] at h1
    | cons y ys =>
      rcases Nat.lt_trichotomy x.toNat y.toNat with h | h | h
      · have e1 : ¬ y.toNat < x.toNat := by omega
        simp [lexLe, e1, h] at h2
      · have e1 : ¬ x.toNat < y.toNat := by omega
        have e2 : ¬ y.toNat < x.toNat := by omega
        simp only [lexLe, e1, e2, if_false] at h1 h2
        rw [char_toNat_inj h, ih h1 h2]
      · have e1 : ¬ x.toNat < y.toNat := by omega
        simp [lexLe, e1, h] at h1

theorem strLe_total (a b : String) : strLe a b = true ∨ strLe b a = true :=
  lexLe_total a.data b.data

theorem strLe_trans {a b c : String} (h1 : strLe a b = true) (h2 : strLe b c = true) :
    strLe a c = true :=
  lexLe_trans h1 h2

theorem strLe_antisymm {a b : String} (h1 : strLe a b = true) (h2 : strLe b a = true) :
    a = b :=
  String.ext (lexLe_antisymm h1 h2)

theorem mem_insertSorted {x a : String} : ∀ {l : List String},
    x ∈ insertSorted a l ↔ x = a ∨ x ∈ l := by
  intro l
  induction l with
  | nil => simp [insertSorted]
  | cons b bs ih =>
    by_cases hab : (a == b) = true
    · have hab' : a = b := by simpa using hab
      subst hab'
      simp only [insertSorted, beq_self_eq_true, if_true]
      constructor
      · exact fun h => Or.inr h
      · rintro (rfl | h)
        · exact List.mem_cons_self _ _
        · exact h
    · by_cases hle : strLe a b = true
      · simp [insertSorted, hab, hle, List.mem_cons]
      · have hrw : insertSorted a (b :: bs) = b :: insertSorted a bs := by
          simp [insertSorted, hab, hle]
        rw [hrw]
        simp only [List.mem_cons, ih]
        tauto

theorem pairwise_insertSorted {a : String} : ∀ {l : List String},
    l.Pairwise (fun x y => strLe x y = true ∧ x ≠ y) →
    (insertSorted a l).Pairwise (fun x y => strLe x y = true ∧ x ≠ y) := by
  intro l
  induction l with
  | nil => intro _; simp [insertSorted]
  | cons b bs ih =>
    intro h
    rcases List.pairwise_cons.mp h with ⟨hb, hbs⟩
    by_cases hab : (a == b) = true
    · simpa [insertSorted, hab] using h
    · have hne : a ≠ b := by simpa using hab
      by_cases hle : strLe a b = true
      · simp only [insertSorted, hab, hle, if_false, if_true]
        refine List.pairwise_cons.mpr ⟨?_, h⟩
        intro y hy
        rcases List.mem_cons.mp hy with rfl | hy'
        · exact ⟨hle, hne⟩
        · rcases hb y hy' with ⟨h1, _⟩
          refine ⟨strLe_trans hle h1, ?_⟩
          rintro rfl
          exact hne (strLe_antisymm hle h1)
      · have hba : strLe b a = true := by
          rcases strLe_total a b with h' | h'
          · exact absurd h' hle
          · exact h'
        simp only [insertSorted, hab, hle, if_false]
        refine List.pairwise_cons.mpr ⟨?_, ih hbs⟩
        intro y hy
        rcases mem_insertSorted.mp hy with rfl | hy'
        · exact ⟨hba, fun e => hne e.symm⟩
        · exact hb y hy'

theorem sortedUnique_pairwise (l : List String) :
    (sortedUnique l).Pairwise (fun x y => strLe x y = true ∧ x ≠ y) := by
  induction l with
  | nil => simp [sortedUnique]
  | cons a as ih => exact pairwise_insertSorted ih

theorem mem_sortedUnique {x : String} : ∀ {l : List String}, x ∈ sortedUnique l ↔ x ∈ l := by
  intro l
  induction l with
  | nil => simp [sortedUnique]
  | cons a as ih =>
    show x ∈ insertSorted a (sortedUnique as) ↔ _
    rw [mem_insertSorted, ih]
    simp [List.mem_cons]

theorem nodup_sortedUnique (l : List String) : (sortedUnique l).Nodup :=
  (sortedUnique_pairwise l).imp (fun h => h.2)

theorem firstIdx_get {c : Char} : ∀ {l : List Char} {n : Nat},
    firstIdx c l = some n → l.get? n = some c := by
  intro l
  induction l with
  | nil => intro n h; simp [firstIdx] at h
  | cons a as ih =>
    intro n h
    by_cases hac : a = c
    · simp only [firstIdx, hac, if_true] at h
      have h0 : n = 0 := by
        cases h
        rfl
      subst h0
      simp [List.get?_cons_zero, hac]
    · simp only [firstIdx, hac, if_false] at h
      cases hf : firstIdx c as with
      | none => rw [hf] at h; simp at h
      | some m =>
        rw [hf] at h
        simp only [Option.map_some'] at h
        cases h
        simpa [List.get?_cons_succ] using ih hf

theorem firstIdx_le {c : Char} : ∀ {l : List Char} {m : Nat},
    l.get? m = some c → ∃ n, firstIdx c l = some n ∧ n ≤ m := by
  intro l
  induction l with
  | nil => intro m h; simp at h
  | cons a as ih =>
    intro m h
    by_cases hac : a = c
    · exact ⟨0, by simp [firstIdx, hac], Nat.zero_le m⟩
    · cases m with
      | zero =>
        rw [List.get?_cons_zero] at h
        cases h
        exact absurd rfl hac
      | succ m' =>
        rw [List.get?_cons_succ] at h
        rcases ih h with ⟨n', hf, hle⟩
        exact ⟨n' + 1, by simp [firstIdx, hac, hf], Nat.succ_le_succ hle⟩

theorem lastIdx_get {c : Char} : ∀ {l : List Char} {n : Nat},
    lastIdx c l = some n → l.get? n = some c := by
  intro l
  induction l with
  | nil => intro n h; simp [lastIdx] at h
  | cons a as ih =>
    intro n h
    cases hf : lastIdx c as with
    | some m =>
      rw [lastIdx, hf] at h
      cases h
      simpa [List.get?_cons_succ] using ih hf
    | none =>
      rw [lastIdx, hf] at h
      by_cases hac : a = c
      · rw [if_pos hac] at h
        cases h
        simp [List.get?_cons_zero, hac]
      · rw [if_neg hac] at h
        cases h

theorem lastIdx_ge {c : Char} : ∀ {l : List Char} {m : Nat},
    l.get? m = some c → ∃ n, lastIdx c l = some n ∧ m ≤ n := by
  intro l
  induction l with
  | nil => intro m h; simp at h
  | cons a as ih =>
    intro m h
    cases m with
    | zero =>
      rw [List.get?_cons_zero] at h
      cases h
      cases hf : lastIdx c as with
      | some k => exact ⟨k + 1, by rw [lastIdx, hf], Nat.zero_le _⟩
      | none => exact ⟨0, by rw [lastIdx, hf, if_pos rfl], Nat.le_refl 0⟩
    | succ m' =>
      rw [List.get?_cons_succ] at h
      rcases ih h with ⟨k, hf, hle⟩
      exact ⟨k + 1, by rw [lastIdx, hf], Nat.succ_le_succ hle⟩

theorem pyStrip_eq_empty_of_all_space {s : String}
    (h : ∀ ch ∈ s.data, isPySpace ch = true) : pyStrip s = "" := by
  have hd : s.data.dropWhile isPySpace = [] := List.dropWhile_eq_nil_iff.mpr h
  apply String.ext
  show pyStripChars s.data = ([] : List Char)
  rw [pyStripChars, hd]
  rfl

theorem parse_health_obj_some {obj : List (String × JsonValue)} {v : Int}
    (hv : to_int (jget obj "steps") = some v) :
    parse_health_obj obj = .ok
      { steps := some (if v > 40000 then 20000 else 0)
      , calories_kcal := to_float (jget obj "calories_kcal")
      , distance_km := to_float (jget obj "distance_km")
      , active_time_minutes := to_float (jget obj "active_time_minutes")
      , total_points := some (calculate_points v (normalize_workout_type (jget obj "workout_type")))
      , workout_type := normalize_workout_type (jget obj "workout_type") } := by
  unfold parse_health_obj
  rw [hv]

/-- C1 counterexample: the claim says a parsed `steps` value above 40000 is
stored as exactly 0, but on the input object with `steps = 50000` the
normalizer stores 20000 — the record it produces never has `steps = 0`
on this input. -/
theorem c1_counterexample :
    parse_health_obj [("steps", JsonValue.int 50000)] =
      .ok { steps := some 20000, calories_kcal := none, distance_km := none,
            active_time_minutes := none, total_points := some 0, workout_type := none } ∧
    ∀ hd, parse_health_obj [("steps", JsonValue.int 50000)] = .ok hd → hd.steps ≠ some 0 := by
  refine ⟨rfl, ?_⟩
  intro hd h
  rw [show parse_health_obj [("steps", JsonValue.int 50000)] =
        Except.ok { steps := some 20000, calories_kcal := none, distance_km := none,
                    active_time_minutes := none, total_points := some 0,
                    workout_type := (none : Option String) } from rfl] at h
  injection h with h2
  subst h2
  decide

/-- C1 (amended): for every input JSON object whose `steps` field parses as
an integer greater than 40000, the record produced by the normalizer
(`parse_health_json`) has its stored `steps` equal to 20000, not 0: the
implausible-value branch clamps to 20000. -/
theorem c1_steps_over_40000_clamped (obj : List (String × JsonValue)) (v : Int)
    (hv : to_int (jget obj "steps") = some v) (hgt : v > 40000) :
    ∃ hd, parse_health_obj obj = .ok hd ∧ hd.steps = some 20000 := by
  refine ⟨_, parse_health_obj_some hv, ?_⟩
  show some (if v > 40000 then (20000 : Int) else 0) = some 20000
  rw [if_pos hgt]

/-- Witness for C1 (amended) at the concrete object with `steps = 50000`. -/
theorem c1_steps_over_40000_clamped_witness :
    (to_int (jget [("steps", JsonValue.int 50000)] "steps") = some 50000 ∧
      (50000 : Int) > 40000) ∧
    ∃ hd, parse_health_obj [("steps", JsonValue.int 50000)] = .ok hd ∧ hd.steps = some 20000 :=
  ⟨⟨rfl, by decide⟩, c1_steps_over_40000_clamped _ 50000 rfl (by decide)⟩

/-- C2: for every input JSON object whose `steps` field parses as an
integer `v` with `0 ≤ v ≤ 40000`, the record produced by the normalizer
has stored `steps` equal to 0 — every plausible parsed step count is
discarded, not only implausible ones. -/
theorem c2_plausible_steps_discarded (obj : List (String × JsonValue)) (v : Int)
    (hv : to_int (jget obj "steps") = some v) (h0 : 0 ≤ v) (h4 : v ≤ 40000) :
    ∃ hd, parse_health_obj obj = .ok hd ∧ hd.steps = some 0 := by
  refine ⟨_, parse_health_obj_some hv, ?_⟩
  show some (if v > 40000 then (20000 : Int) else 0) = some 0
  rw [if_neg (not_lt.mpr h4)]

/-- Witness for C2 at the concrete object with `steps = 9000`. -/
theorem c2_plausible_steps_discarded_witness :
    (to_int (jget [("steps", JsonValue.int 9000)] "steps") = some 9000 ∧
      (0 : Int) ≤ 9000 ∧ (9000 : Int) ≤ 40000) ∧
    ∃ hd, parse_health_obj [("steps", JsonValue.int 9000)] = .ok hd ∧ hd.steps = some 0 :=
  ⟨⟨rfl, by decide, by decide⟩,
    c2_plausible_steps_discarded _ 9000 rfl (by decide) (by decide)⟩

/-- C3 counterexample: the claim's value table fails on the code —
`calculate_points(4000, "cardio")` is 200, not 225 (and likewise 350 and
500 are not attained): the function returns the workout bonus only. -/
theorem c3_counterexample :
    calculate_points 4000 (some "cardio") ≠ 225 ∧
    calculate_points 12000 (some "yoga") ≠ 350 ∧
    calculate_points 25000 none ≠ 500 := by
  refine ⟨by decide, by decide, by decide⟩

/-- C3 (amended): `calculate_points` is a pure function of its two
arguments, equal to the `workout_points` lookup alone (the step bucket it
computes internally is dead); the example calls yield
`calculate_points(4000, "cardio") = 200`,
`calculate_points(12000, "yoga") = 200`, `calculate_points(25000, null) = 0`. -/
theorem c3_amended_workout_bonus_only :
    (∀ (steps : Int) (w : Option String),
        calculate_points steps w = dictGetInt workout_points w 0) ∧
    calculate_points 4000 (some "cardio") = 200 ∧
    calculate_points 12000 (some "yoga") = 200 ∧
    calculate_points 25000 none = 0 :=
  ⟨fun _ _ => rfl, rfl, rfl, rfl⟩

/-- C4: for every input object whose steps parse, the per-image
`total_points` stored on the record equals the workout bonus only
(sport→300, strength_training→300, cardio→200, yoga→200,
null/unrecognized→0); `calculate_points` is independent of its steps
argument, so no step-bucket contribution exists at the per-image level. -/
theorem c4_per_image_points_workout_bonus (obj : List (String × JsonValue)) (v : Int)
    (hv : to_int (jget obj "steps") = some v) :
    (∃ hd, parse_health_obj obj = .ok hd ∧
        hd.total_points =
          some (dictGetInt workout_points (normalize_workout_type (jget obj "workout_type")) 0)) ∧
    (∀ (s1 s2 : Int) (w : Option String), calculate_points s1 w = calculate_points s2 w) ∧
    dictGetInt workout_points (some "sport") 0 = 300 ∧
    dictGetInt workout_points (some "strength_training") 0 = 300 ∧
    dictGetInt workout_points (some "cardio") 0 = 200 ∧
    dictGetInt workout_points (some "yoga") 0 = 200 ∧
    dictGetInt workout_points none 0 = 0 :=
  ⟨⟨_, parse_health_obj_some hv, rfl⟩, fun _ _ _ => rfl, rfl, rfl, rfl, rfl, rfl⟩

/-- Witness for C4 at the object `steps = 1000, workout_type = "cardio"`. -/
theorem c4_per_image_points_workout_bonus_witness :
    (to_int (jget [("steps", JsonValue.int 1000), ("workout_type", JsonValue.str "cardio")]
        "steps") = some 1000) ∧
    ((∃ hd, parse_health_obj
          [("steps", JsonValue.int 1000), ("workout_type", JsonValue.str "cardio")] = .ok hd ∧
        hd.total_points =
          some (dictGetInt workout_points
            (normalize_workout_type
              (jget [("steps", JsonValue.int 1000), ("workout_type", JsonValue.str "cardio")]
                "workout_type")) 0)) ∧
      (∀ (s1 s2 : Int) (w : Option String), calculate_points s1 w = calculate_points s2 w) ∧
      dictGetInt workout_points (some "sport") 0 = 300 ∧
      dictGetInt workout_points (some "strength_training") 0 = 300 ∧
      dictGetInt workout_points (some "cardio") 0 = 200 ∧
      dictGetInt workout_points (some "yoga") 0 = 200 ∧
      dictGetInt workout_points none 0 = 0) :=
  ⟨rfl, c4_per_image_points_workout_bonus _ 1000 rfl⟩

/-- C8: the claim says the normalizer nulls unparseable fields and never
raises, but the code passes the raw `to_int(obj.get("steps"))` — `None`
when `steps` is missing, null, or unparseable — into `calculate_points`,
where `None <= 5000` raises `TypeError`: evaluated at such inputs,
`parse_health_json`'s normalization raises instead of returning a record. -/
theorem c8_normalizer_raises_on_unparseable_steps :
    parse_health_obj [("steps", JsonValue.null)] = .error PyErr.typeError ∧
    parse_health_obj [] = .error PyErr.typeError ∧
    parse_health_obj [("steps", JsonValue.str "n/a"), ("calories_kcal", JsonValue.str "x")]
      = .error PyErr.typeError :=
  ⟨rfl, rfl, rfl⟩

/-- C7: evaluated at a user whose daily summaries carry
`workout_types = "cardio, yoga"` (a `", "`-joined merged list) and
`"yoga"`, the leaderboard merge joins with `","` and splits on `","`, so
the fragment `" yoga"` (leading space) and the fragment `"yoga"` both
survive deduplication: the merged string is `" yoga, cardio, yoga"`, whose
own comma-split token list contains `" yoga"` twice — not a deduplicated
union in which each distinct token appears exactly once. -/
theorem c7_leaderboard_merge_duplicates_tokens :
    lb_workout_types_agg ["cardio, yoga", "yoga"] = " yoga, cardio, yoga" ∧
    pySplit ',' (lb_workout_types_agg ["cardio, yoga", "yoga"]) =
      [" yoga", " cardio", " yoga"] ∧
    ¬ (pySplit ',' (lb_workout_types_agg ["cardio, yoga", "yoga"])).Nodup := by
  refine ⟨by decide, by decide, by decide⟩

theorem parse_health_json_no_brace_error {raw : String}
    (hC : pyFind '{' raw.data = -1 ∨ pyRfind '}' raw.data = -1 ∨
          pyFind '{' raw.data > pyRfind '}' raw.data) :
    parse_health_json raw =
      .error (.LLMExtractionError ("Could not find JSON object in response: " ++ pyTake 200 raw)) := by
  simp only [parse_health_json]
  rw [if_pos hC]

theorem parse_health_json_decode_error {raw : String} {i j : Nat}
    (hf : firstIdx '{' raw.data = some i) (hl : lastIdx '}' raw.data = some j)
    (hij : i ≤ j) (hload : jsonLoads (pySlice raw i (j + 1)) = none) :
    parse_health_json raw =
      .error (.LLMExtractionError ("Invalid JSON from LLM: Expecting value | raw=" ++ pyTake 200 raw)) := by
  simp only [parse_health_json, pyFind, pyRfind, hf, hl]
  rw [if_neg ?hcond]
  case hcond =>
    rintro (h | h | h) <;> omega
  simp only [Int.toNat_ofNat, hload]

/-- C9: for every raw model output that contains no `'\x7b' ... '\x7d'`
span (no opening brace, no closing brace, or every closing brace before
every opening brace), or whose located span (first opening brace to last
closing brace) fails to parse as JSON, `parse_health_json` raises
`LLMExtractionError` carrying the truncated snippet `raw[:200]` of the
offending text, and never returns a record. -/
theorem c9_malformed_output_raises (raw : String)
    (h : (¬ ∃ i j, i < j ∧ raw.data.get? i = some '{' ∧ raw.data.get? j = some '}') ∨
         (∃ i j, firstIdx '{' raw.data = some i ∧ lastIdx '}' raw.data = some j ∧
            jsonLoads (pySlice raw i (j + 1)) = none)) :
    ∃ msg, parse_health_json raw = .error (PyErr.LLMExtractionError msg) ∧
      (pyTake 200 raw).data <:+ msg.data ∧
      ∀ hd, parse_health_json raw ≠ .ok hd := by
  have pack : ∀ pre : String,
      parse_health_json raw = .error (.LLMExtractionError (pre ++ pyTake 200 raw)) →
      ∃ msg, parse_health_json raw = .error (PyErr.LLMExtractionError msg) ∧
        (pyTake 200 raw).data <:+ msg.data ∧
        ∀ hd, parse_health_json raw ≠ .ok hd := by
    intro pre heq
    refine ⟨pre ++ pyTake 200 raw, heq, ?_, ?_⟩
    · rw [String.data_append]
      exact List.suffix_append _ _
    · intro hd hcon
      rw [heq] at hcon
      exact Except.noConfusion hcon
  rcases h with hns | ⟨i, j, hf, hl, hload⟩
  · cases hff : firstIdx '{' raw.data with
    | none =>
      exact pack _ (parse_health_json_no_brace_error (Or.inl (by simp [pyFind, hff])))
    | some i =>
      cases hll : lastIdx '}' raw.data with
      | none =>
        exact pack _
          (parse_health_json_no_brace_error (Or.inr (Or.inl (by simp [pyRfind, hll]))))
      | some j =>
        have hgi : raw.data.get? i = some '{' := firstIdx_get hff
        have hgj : raw.data.get? j = some '}' := lastIdx_get hll
        have hij : j < i := by
          rcases Nat.lt_trichotomy i j with hlt | heq | hgt
          · exact absurd ⟨i, j, hlt, hgi, hgj⟩ hns
          · subst heq
            rw [hgi] at hgj
            cases hgj
          · exact hgt
        refine pack _ (parse_health_json_no_brace_error (Or.inr (Or.inr ?_)))
        simp only [pyFind, pyRfind, hff, hll]
        exact_mod_cast hij
  · rcases le_or_lt i j with hij | hij
    · exact pack _ (parse_health_json_decode_error hf hl hij hload)
    · refine pack _ (parse_health_json_no_brace_error (Or.inr (Or.inr ?_)))
      simp only [pyFind, pyRfind, hf, hl]
      exact_mod_cast hij

/-- Witness for C9 at the concrete brace-free raw output `"model failure"`. -/
theorem c9_malformed_output_raises_witness :
    (¬ ∃ i j, i < j ∧ ("model failure" : String).data.get? i = some '{' ∧
        ("model failure" : String).data.get? j = some '}') ∧
    ∃ msg, parse_health_json "model failure" = .error (PyErr.LLMExtractionError msg) ∧
      (pyTake 200 "model failure").data <:+ msg.data ∧
      ∀ hd, parse_health_json "model failure" ≠ .ok hd := by
  have hns : ¬ ∃ i j, i < j ∧ ("model failure" : String).data.get? i = some '{' ∧
      ("model failure" : String).data.get? j = some '}' := by
    rintro ⟨i, j, _, hi, _⟩
    have hmem : '{' ∈ ("model failure" : String).data := List.get?_mem hi
    revert hmem
    decide
  exact ⟨hns, c9_malformed_output_raises "model failure" (Or.inl hns)⟩

/-- C10: for every empty or whitespace-only input text, the extraction
pipeline returns the zero-valued record (all numeric metrics 0,
`total_points` 0) and its result does not depend on the LLM oracle at all
— the structured extractor is never consulted. -/
theorem c10_empty_text_short_circuit (text : String)
    (h : ∀ ch ∈ text.data, isPySpace ch = true) :
    (∀ llm : String → String, extract_health_data_from_text llm text = .ok empty_health_data) ∧
    (∀ llm1 llm2 : String → String,
        extract_health_data_from_text llm1 text = extract_health_data_from_text llm2 text) ∧
    empty_health_data.steps = some 0 ∧
    empty_health_data.calories_kcal = some 0 ∧
    empty_health_data.distance_km = some 0 ∧
    empty_health_data.active_time_minutes = some 0 ∧
    empty_health_data.total_points = some 0 := by
  have hs : pyStrip text = "" := pyStrip_eq_empty_of_all_space h
  have hmain : ∀ llm : String → String,
      extract_health_data_from_text llm text = .ok empty_health_data := by
    intro llm
    unfold extract_health_data_from_text
    rw [hs]
    simp
  exact ⟨hmain, fun l1 l2 => (hmain l1).trans (hmain l2).symm, rfl, rfl, rfl, rfl, rfl⟩

/-- Witness for C10 at the concrete whitespace-only text `"  "`, with two
concrete distinct oracles. -/
theorem c10_empty_text_short_circuit_witness :
    (∀ ch ∈ ("  " : String).data, isPySpace ch = true) ∧
    (∀ llm : String → String, extract_health_data_from_text llm "  " = .ok empty_health_data) ∧
    extract_health_data_from_text (fun _ => "oracle one") "  " =
      extract_health_data_from_text (fun _ => "oracle two") "  " := by
  have h : ∀ ch ∈ ("  " : String).data, isPySpace ch = true := by decide
  rcases c10_empty_text_short_circuit "  " h with ⟨h1, h2, _⟩
  exact ⟨h, h1, h2 _ _⟩

/-- C5: for every non-empty list of per-image records for one day whose
workout types respect the data model (never the empty string — the
normalizer only ever produces `None` or a member of the closed workout
set), the daily aggregator produces one summary row per distinct user,
and for each user appearing in the input there is a row with
`total_steps` the max of the group's steps, sums for
calories/distance/active-time and per-image points, `workout_types` the
`", "`-join of a sorted deduplicated list holding exactly the group's
non-null workout types, and `total_points` the sum of the group's
per-image points plus one step bucket computed from the group's max
steps. -/
theorem c5_daily_aggregation (records : List AggRecord)
    (hne : records ≠ [])
    (hwt : ∀ r ∈ records, r.workout_type ≠ some "") :
    ((export_summary_rows records).map (fun row => row.email)).Nodup ∧
    ∀ e ∈ records.map (fun r => r.email),
      ∃ row ∈ export_summary_rows records,
        row.email = e ∧
        row.total_steps =
          listMax ((records.filter (fun r => r.email == e)).map (fun r => r.steps)) ∧
        row.total_calories_kcal =
          ((records.filter (fun r => r.email == e)).map (fun r => r.calories_kcal.getD 0)).sum ∧
        row.total_distance_km =
          ((records.filter (fun r => r.email == e)).map (fun r => r.distance_km.getD 0)).sum ∧
        row.total_active_time_minutes =
          ((records.filter (fun r => r.email == e)).map
            (fun r => r.active_time_minutes.getD 0)).sum ∧
        row.total_points =
          ((records.filter (fun r => r.email == e)).map (fun r => r.total_points)).sum +
            step_points_select
              (listMax ((records.filter (fun r => r.email == e)).map (fun r => r.steps))) ∧
        ∃ ts, row.workout_types = String.intercalate ", " ts ∧
          ts.Nodup ∧
          ts.Pairwise (fun x y => strLe x y = true) ∧
          ∀ t, t ∈ ts ↔
            some t ∈ (records.filter (fun r => r.email == e)).map (fun r => r.workout_type) := by
  constructor
  · have hcomp : ((fun row : SummaryRow => row.email) ∘ summaryRow records) = id := by
      funext e
      rfl
    have hemails : (export_summary_rows records).map (fun row => row.email) =
        sortedUnique (records.map (fun r => r.email)) := by
      unfold export_summary_rows
      rw [List.map_map, hcomp, List.map_id]
    rw [hemails]
    exact nodup_sortedUnique _
  · intro e he
    have hmem : e ∈ sortedUnique (records.map (fun r => r.email)) := mem_sortedUnique.mpr he
    have hfil : ((records.filter (fun r => r.email == e)).filterMap
        (fun r => r.workout_type)).filter (fun s => !(s == "")) =
        (records.filter (fun r => r.email == e)).filterMap (fun r => r.workout_type) := by
      apply List.filter_eq_self.mpr
      intro s hs
      rcases List.mem_filterMap.mp hs with ⟨r, hr, hrs⟩
      have hsne : s ≠ "" := by
        rintro rfl
        exact hwt r (List.mem_of_mem_filter hr) hrs
      simp [hsne]
    refine ⟨summaryRow records e, List.mem_map_of_mem _ hmem, rfl, rfl, rfl, rfl, rfl, rfl,
      sortedUnique ((records.filter (fun r => r.email == e)).filterMap
        (fun r => r.workout_type)), ?_, nodup_sortedUnique _,
      (sortedUnique_pairwise _).imp (fun hp => hp.1), ?_⟩
    · show String.intercalate ", "
          (sortedUnique (((records.filter (fun r => r.email == e)).filterMap
            (fun r => r.workout_type)).filter (fun s => !(s == "")))) = _
      rw [hfil]
    · intro t
      rw [mem_sortedUnique, List.mem_filterMap]
      constructor
      · rintro ⟨r, hr, hrt⟩
        exact List.mem_map.mpr ⟨r, hr, hrt⟩
      · intro hmap
        rcases List.mem_map.mp hmap with ⟨r, hr, hrt⟩
        exact ⟨r, hr, hrt⟩

/-- Witness for C5 at the concrete one-day input of the claim: one user
with two images, steps 3000 with workout `cardio` and steps 9000 with no
workout, per-image points as produced by `calculate_points`; the single
summary row has `total_steps = 9000` and
`total_points = 200 + 0 + 80 = 280`. -/
theorem c5_daily_aggregation_witness :
    (c5_witness_records ≠ [] ∧
      ∀ r ∈ c5_witness_records, r.workout_type ≠ some "") ∧
    ((export_summary_rows c5_witness_records).map (fun row => row.email)).Nodup ∧
    (export_summary_rows c5_witness_records).map (fun row => row.total_steps) = [9000] ∧
    (export_summary_rows c5_witness_records).map (fun row => row.total_points) = [280] ∧
    (export_summary_rows c5_witness_records).map (fun row => row.workout_types) =
      ["cardio"] := by
  refine ⟨⟨by decide, by decide⟩,
    (c5_daily_aggregation _ (by decide) (by decide)).1, by decide, by decide, by decide⟩
